import Mathlib

/-!
Verification development for the notebook
`wk3/.ipynb_checkpoints/EE_Batch normalisation-checkpoint.ipynb`.

The notebook is a linear script: load the diabetes dataset, z-score
normalise the targets, split into train/test sets, build a Sequential
model containing batch-normalisation layers (default and customised),
compile, fit for 100 epochs, and plot the recorded history.  Below the
notebook's arithmetic and its cell sequence are embedded shallowly:
numpy statistics over `List ℝ`, layer stacks as configuration data, the
cell sequence as a step list, and the run as explicit state passing.
External library calls (dataset loader, splitter, training loop) are not
code of this repository; they are modelled by parameters standing for
the library's observable behaviour (the split's random row assignment,
the per-epoch scalars the framework records).
-/

namespace TF2LDN

/-- numpy `ndarray.mean(axis=0)` on a 1-D array: the arithmetic mean.
Lean's `x / 0 = 0` stands in for numpy's NaN on the empty array; every
theorem below that needs the mean is guarded away from that case. -/
noncomputable def npMean (x : List ℝ) : ℝ := x.sum / (x.length : ℝ)

/-- numpy `ndarray.var()` with the default `ddof = 0`: the population
variance, mean of squared deviations from the mean. -/
noncomputable def npVar (x : List ℝ) : ℝ :=
  (x.map (fun v => (v - npMean x) ^ 2)).sum / (x.length : ℝ)

/-- numpy `ndarray.std()`: square root of the population variance. -/
noncomputable def npStd (x : List ℝ) : ℝ := Real.sqrt (npVar x)

/-- The notebook's one line of arithmetic (cell "Normalise the target
data"): `targets = (targets - targets.mean(axis=0)) / (targets.std())`,
applied elementwise to the full target vector. -/
noncomputable def normalizeTargets (x : List ℝ) : List ℝ :=
  x.map (fun v => (v - npMean x) / npStd x)

lemma sum_map_sub_div (x : List ℝ) (a s : ℝ) :
    (x.map (fun v => (v - a) / s)).sum = (x.sum - (x.length : ℝ) * a) / s := by
  induction x with
  | nil => simp
  | cons h t ih =>
      simp only [List.map_cons, List.sum_cons, ih, List.length_cons, List.sum_cons,
        div_add_div_same]
      congr 1
      push_cast
      ring

lemma sum_map_sq_sub_div (x : List ℝ) (a s : ℝ) :
    (x.map (fun v => ((v - a) / s) ^ 2)).sum
      = (x.map (fun v => (v - a) ^ 2)).sum / s ^ 2 := by
  induction x with
  | nil => simp
  | cons h t ih =>
      rw [List.map_cons, List.sum_cons, ih, div_pow, div_add_div_same,
        List.map_cons, List.sum_cons]

lemma npVar_nonneg (x : List ℝ) : 0 ≤ npVar x := by
  refine div_nonneg ?_ (by positivity)
  refine List.sum_nonneg ?_
  intro v hv
  rcases List.mem_map.1 hv with ⟨w, _, rfl⟩
  positivity

lemma npStd_ne_zero_iff (x : List ℝ) : npStd x ≠ 0 ↔ 0 < npVar x := by
  rw [npStd, Real.sqrt_ne_zero (npVar_nonneg x)]
  exact ⟨fun h => (npVar_nonneg x).lt_of_ne (Ne.symm h), fun h => h.ne'⟩

lemma length_ne_zero_of_npVar_ne_zero (x : List ℝ) (h : npVar x ≠ 0) :
    (x.length : ℝ) ≠ 0 := by
  intro hn
  apply h
  have hx : x = [] := List.length_eq_zero.mp (Nat.cast_eq_zero.mp hn)
  simp [hx, npVar, npMean]

lemma sum_eq_length_mul_npMean (x : List ℝ) (hn : (x.length : ℝ) ≠ 0) :
    x.sum = (x.length : ℝ) * npMean x := by
  rw [npMean, mul_div_cancel₀ _ hn]

lemma npMean_normalizeTargets (x : List ℝ) (h : npStd x ≠ 0) :
    npMean (normalizeTargets x) = 0 := by
  have hv : npVar x ≠ 0 := ((npStd_ne_zero_iff x).1 h).ne'
  have hn : (x.length : ℝ) ≠ 0 := length_ne_zero_of_npVar_ne_zero x hv
  rw [npMean, normalizeTargets, sum_map_sub_div, List.length_map,
    sum_eq_length_mul_npMean x hn]
  simp

lemma npVar_normalizeTargets (x : List ℝ) (h : npStd x ≠ 0) :
    npVar (normalizeTargets x) = 1 := by
  have hv : 0 < npVar x := (npStd_ne_zero_iff x).1 h
  have hn : (x.length : ℝ) ≠ 0 := length_ne_zero_of_npVar_ne_zero x hv.ne'
  have hsq : npStd x ^ 2 = npVar x := Real.sq_sqrt (npVar_nonneg x)
  have hS : (x.map (fun v => (v - npMean x) ^ 2)).sum = npVar x * (x.length : ℝ) := by
    rw [npVar, div_mul_cancel₀ _ hn]
  rw [npVar, npMean_normalizeTargets x h, normalizeTargets, List.length_map,
    List.map_map]
  have hfun : ((fun v => (v - 0) ^ 2) ∘ fun v => (v - npMean x) / npStd x)
      = fun v => ((v - npMean x) / npStd x) ^ 2 := by
    funext v
    simp
  rw [hfun, sum_map_sq_sub_div, hS, hsq]
  field_simp

/-- C1: normalising a target vector of nonzero standard deviation by
`(targets - targets.mean(axis=0)) / targets.std()` yields a vector of
mean 0 and standard deviation 1. -/
theorem c1_normalized_mean_zero_std_one (x : List ℝ) (h : npStd x ≠ 0) :
    npMean (normalizeTargets x) = 0 ∧ npStd (normalizeTargets x) = 1 := by
  refine ⟨npMean_normalizeTargets x h, ?_⟩
  rw [npStd, npVar_normalizeTargets x h, Real.sqrt_one]

lemma npStd_pair : npStd [(-1 : ℝ), 1] = 1 := by
  have hv : npVar [(-1 : ℝ), 1] = 1 := by
    have hm : npMean [(-1 : ℝ), 1] = 0 := by
      simp [npMean]
    rw [npVar, hm]
    norm_num
  rw [npStd, hv, Real.sqrt_one]

/-- Witness for C1 at the concrete target vector `[-1, 1]`. -/
theorem c1_witness :
    npStd [(-1 : ℝ), 1] ≠ 0 ∧
      (npMean (normalizeTargets [(-1 : ℝ), 1]) = 0 ∧
        npStd (normalizeTargets [(-1 : ℝ), 1]) = 1) := by
  have h : npStd [(-1 : ℝ), 1] ≠ 0 := by
    rw [npStd_pair]
    norm_num
  exact ⟨h, c1_normalized_mean_zero_std_one [(-1 : ℝ), 1] h⟩

/-- Keras weight initializers appearing in the notebook:
`tf.keras.initializers.RandomNormal(mean, stddev)` and
`tf.keras.initializers.Constant(value)` plus the layer defaults. -/
inductive Initializer where
  | zeros : Initializer
  | ones : Initializer
  | randomNormal (mean stddev : ℚ) : Initializer
  | constant (value : ℚ) : Initializer
deriving DecidableEq

/-- Hyperparameters of `tf.keras.layers.BatchNormalization`, with the
framework's documented defaults (the notebook's own markdown restates
them: momentum 0.99, epsilon 0.001, zero beta, unit gamma, axis -1). -/
structure BNConfig where
  momentum : ℚ := 0.99
  epsilon : ℚ := 0.001
  axis : Int := -1
  betaInitializer : Initializer := Initializer.zeros
  gammaInitializer : Initializer := Initializer.ones
deriving DecidableEq

/-- The layer kinds the notebook's model actually contains, as
declarative configuration (the layer computation itself is the
framework's). -/
inductive Layer where
  | dense (units : Nat) (inputShape : Option Nat) (activation : Option String) : Layer
  | batchNorm (cfg : BNConfig) : Layer
  | dropout (rate : ℚ) : Layer
deriving DecidableEq

/-- The customised batch-normalisation layer added by
`model.add(tf.keras.layers.BatchNormalization(momentum=0.95, epsilon=0.005,
axis=-1, beta_initializer=RandomNormal(0.0, 0.05),
gamma_initializer=Constant(0.9)))`. -/
def customBNConfig : BNConfig :=
  { momentum := 0.95
    epsilon := 0.005
    axis := -1
    betaInitializer := Initializer.randomNormal 0.0 0.05
    gammaInitializer := Initializer.constant 0.9 }

/-- The `Sequential([...])` stack from the "Build the model" cell; its
first Dense layer declares `input_shape=[train_data.shape[1],]`. -/
def buildModel (inputCols : Nat) : List Layer :=
  [Layer.dense 64 (some inputCols) (some ("relu")),
   Layer.batchNorm {},
   Layer.dropout 0.5,
   Layer.batchNorm {},
   Layer.dropout 0.5,
   Layer.dense 256 none (some ("relu"))]

/-- The full layer stack after the two `model.add` cells (customised
batch norm, then the `Dense(1)` output layer). -/
def notebookModel (inputCols : Nat) : List Layer :=
  buildModel inputCols ++ [Layer.batchNorm customBNConfig, Layer.dense 1 none none]

/-- Arguments of `model.compile(optimizer='adam', loss='mse', metrics=['mae'])`. -/
structure CompileConfig where
  optimizer : String
  loss : String
  metrics : List String
deriving DecidableEq

def notebookCompile : CompileConfig :=
  { optimizer := "adam", loss := "mse", metrics := ["mae"] }

/-- Arguments of `model.fit(train_data, train_targets, epochs=100,
validation_split=0.15, batch_size=64, verbose=False)`. -/
structure FitConfig where
  epochs : Nat
  validationSplit : ℚ
  batchSize : Nat
  verbose : Bool
deriving DecidableEq

def notebookFit : FitConfig :=
  { epochs := 100, validationSplit := 0.15, batchSize := 64, verbose := false }

/-- The four series recorded in `history.history` for this fit
(loss `mse`, metric `mae`, each with a validation counterpart). -/
structure History where
  loss : List ℝ
  valLoss : List ℝ
  mae : List ℝ
  valMae : List ℝ

/-- Modelled from the spec: the framework's `History.history` record
(the training loop itself is external, not in src/) holds, per recorded
series, one scalar per epoch; the per-epoch scalars are a parameter `f`
standing for whatever the framework computes. -/
noncomputable def mkHistory (epochs : Nat) (f : Nat → ℝ × ℝ × ℝ × ℝ) : History :=
  { loss := (List.range epochs).map (fun e => (f e).1)
    valLoss := (List.range epochs).map (fun e => (f e).2.1)
    mae := (List.range epochs).map (fun e => (f e).2.2.1)
    valMae := (List.range epochs).map (fun e => (f e).2.2.2) }

/-- `pd.DataFrame(history.history)`: rows are epochs, so the frame's
length is the length of the recorded series. -/
def frameLen (h : History) : Nat := h.loss.length

/-- `epochs = np.arange(len(frame))`: the x-axis the plotting cell uses. -/
def epochsAxis (h : History) : List Nat := List.range (frameLen h)

/-- Row selection with explicit start index: keeps row `i` when
`sel i = b`.  The boolean assignment `sel` stands for the randomness of
`train_test_split` (`b = false` selects the training side, `b = true`
the test side). -/
def selectRowsFrom {α : Type} (sel : Nat → Bool) (b : Bool) : Nat → List α → List α
  | _, [] => []
  | i, r :: rs =>
      if sel i = b then r :: selectRowsFrom sel b (i + 1) rs
      else selectRowsFrom sel b (i + 1) rs

/-- Modelled from the spec: `sklearn.model_selection.train_test_split`
(external, not in src/) partitions rows into two disjoint subsets
according to a random assignment, modelled by the parameter `sel`. -/
def selectRows {α : Type} (sel : Nat → Bool) (b : Bool) (xs : List α) : List α :=
  selectRowsFrom sel b 0 xs

/-- In-memory state threaded through the notebook's cells. -/
structure PipeState where
  data : List (List ℝ)
  targets : List ℝ
  trainData : List (List ℝ)
  testData : List (List ℝ)
  trainTargets : List ℝ
  testTargets : List ℝ
  model : List Layer
  compileCfg : Option CompileConfig
  history : Option History

/-- `data.shape[1]` of a rectangular row-major matrix. -/
def shape1 (m : List (List ℝ)) : Nat :=
  match m with
  | [] => 0
  | r :: _ => r.length

/-- Cell "Save the input and target variables": the initial state. -/
def stepAssign (data0 : List (List ℝ)) (targets0 : List ℝ) : PipeState :=
  { data := data0, targets := targets0, trainData := [], testData := [],
    trainTargets := [], testTargets := [], model := [], compileCfg := none,
    history := none }

/-- Cell "Normalise the target data". -/
noncomputable def stepNormalize (s : PipeState) : PipeState :=
  { s with targets := normalizeTargets s.targets }

/-- Cell "Split the dataset into training and test datasets". -/
def stepSplit (sel : Nat → Bool) (s : PipeState) : PipeState :=
  { s with
    trainData := selectRows sel false s.data
    testData := selectRows sel true s.data
    trainTargets := selectRows sel false s.targets
    testTargets := selectRows sel true s.targets }

/-- Cell "Build the model". -/
def stepBuild (s : PipeState) : PipeState :=
  { s with model := buildModel (shape1 s.trainData) }

/-- Cell "Add a customised batch normalisation layer". -/
def stepAddCustomBN (s : PipeState) : PipeState :=
  { s with model := s.model ++ [Layer.batchNorm customBNConfig] }

/-- Cell "Add the output layer". -/
def stepAddOutput (s : PipeState) : PipeState :=
  { s with model := s.model ++ [Layer.dense 1 none none] }

/-- Cell "Compile the model". -/
def stepCompile (s : PipeState) : PipeState :=
  { s with compileCfg := some notebookCompile }

/-- Cell "Train the model": the training loop is the framework's; the
recorded history is modelled by `mkHistory` over the per-epoch scalars `f`. -/
noncomputable def stepFit (f : Nat → ℝ × ℝ × ℝ × ℝ) (s : PipeState) : PipeState :=
  { s with history := some (mkHistory notebookFit.epochs f) }

/-- The cells that run after the train/test split, in notebook order
(the plotting cell only reads `history`, so it is the identity on the
state). -/
noncomputable def postSplitRun (f : Nat → ℝ × ℝ × ℝ × ℝ) (s : PipeState) : PipeState :=
  stepFit f (stepCompile (stepAddOutput (stepAddCustomBN (stepBuild s))))

/-- The whole notebook, cells in source order. -/
noncomputable def runNotebook (sel : Nat → Bool) (f : Nat → ℝ × ℝ × ℝ × ℝ)
    (data0 : List (List ℝ)) (targets0 : List ℝ) : PipeState :=
  postSplitRun f (stepSplit sel (stepNormalize (stepAssign data0 targets0)))

/-- The notebook's code cells, one constructor per cell. -/
inductive Step where
  | importTensorFlow : Step
  | loadDataset : Step
  | assignVariables : Step
  | normalizeCell : Step
  | splitCell : Step
  | importLayers : Step
  | buildCell : Step
  | summaryCell : Step
  | addCustomBNCell : Step
  | addOutputCell : Step
  | compileCell : Step
  | fitCell : Step
  | plotCell : Step
deriving DecidableEq

/-- The notebook's code cells in source order. -/
def notebookSteps : List Step :=
  [Step.importTensorFlow, Step.loadDataset, Step.assignVariables,
   Step.normalizeCell, Step.splitCell, Step.importLayers, Step.buildCell,
   Step.summaryCell, Step.addCustomBNCell, Step.addOutputCell,
   Step.compileCell, Step.fitCell, Step.plotCell]

/-- Which cells partition the dataset into disjoint subsets: only the
`train_test_split` cell does. -/
def isSplitStep : Step → Bool
  | Step.splitCell => true
  | _ => false

lemma selectRowsFrom_partition {α : Type} (sel : Nat → Bool) (xs : List α) :
    ∀ i, (selectRowsFrom sel false i xs ++ selectRowsFrom sel true i xs).Perm xs := by
  induction xs with
  | nil => intro i; simp [selectRowsFrom]
  | cons r rs ih =>
      intro i
      cases h : sel i with
      | false =>
          simp only [selectRowsFrom]
          rw [h]
          simp only [if_pos rfl, if_neg (by simp : ¬ false = true), List.cons_append]
          exact List.Perm.cons r (ih (i + 1))
      | true =>
          simp only [selectRowsFrom]
          rw [h]
          simp only [if_pos rfl, if_neg (by simp : ¬ true = false)]
          exact List.perm_middle.trans (List.Perm.cons r (ih (i + 1)))

/-- C2: the pipeline performs exactly one in-memory split: the
`train_test_split` cell is the only cell that partitions the data, and
the split it performs is a genuine partition (train rows and test rows
together are a permutation of the input rows, for data and targets
alike). -/
theorem c2_single_split :
    notebookSteps.filter isSplitStep = [Step.splitCell] ∧
      (∀ (α : Type) (sel : Nat → Bool) (xs : List α),
        (selectRows sel false xs ++ selectRows sel true xs).Perm xs) := by
  refine ⟨by decide, ?_⟩
  intro α sel xs
  exact selectRowsFrom_partition sel xs 0

/-- C3: the cells run in the stated order (normalisation before the
split, the split before model construction, compilation, fitting and
plotting), and semantically the split receives the already-normalised
targets: the train and test target vectors are selections from
`normalizeTargets targets0`. -/
theorem c3_step_order :
    (notebookSteps.indexOf Step.normalizeCell < notebookSteps.indexOf Step.splitCell ∧
      notebookSteps.indexOf Step.splitCell < notebookSteps.indexOf Step.buildCell ∧
      notebookSteps.indexOf Step.buildCell < notebookSteps.indexOf Step.compileCell ∧
      notebookSteps.indexOf Step.compileCell < notebookSteps.indexOf Step.fitCell ∧
      notebookSteps.indexOf Step.fitCell < notebookSteps.indexOf Step.plotCell) ∧
      (∀ (sel : Nat → Bool) (f : Nat → ℝ × ℝ × ℝ × ℝ) (d : List (List ℝ)) (t : List ℝ),
        (runNotebook sel f d t).trainTargets = selectRows sel false (normalizeTargets t) ∧
          (runNotebook sel f d t).testTargets = selectRows sel true (normalizeTargets t)) := by
  refine ⟨by decide, ?_⟩
  intro sel f d t
  exact ⟨rfl, rfl⟩

/-- C4: the final layer stack contains a batch-normalisation layer with
the framework defaults (momentum 0.99, epsilon 0.001, axis -1, zero
beta, unit gamma) and one with the notebook's customised hyperparameters
(momentum 0.95, epsilon 0.005, axis -1, random-normal beta initializer,
constant-0.9 gamma initializer). -/
theorem c4_batchnorm_layers (inputCols : Nat) :
    Layer.batchNorm
        { momentum := 0.99, epsilon := 0.001, axis := -1,
          betaInitializer := Initializer.zeros,
          gammaInitializer := Initializer.ones } ∈ notebookModel inputCols ∧
      Layer.batchNorm
        { momentum := 0.95, epsilon := 0.005, axis := -1,
          betaInitializer := Initializer.randomNormal 0.0 0.05,
          gammaInitializer := Initializer.constant 0.9 } ∈ notebookModel inputCols := by
  constructor <;> simp [notebookModel, buildModel, customBNConfig]

/-- Modelled from the spec: `sklearn.datasets.load_diabetes` (external,
not in src/) returns a feature matrix of samples × 10 features. -/
def diabetesFeatureCount : Nat := 10

/-- The input shape declared by the first layer of a stack, when that
layer is a Dense layer declaring one. -/
def firstInputShape (m : List Layer) : Option Nat :=
  match m with
  | Layer.dense _ s _ :: _ => s
  | _ => none

lemma mem_of_mem_selectRowsFrom {α : Type} (sel : Nat → Bool) (b : Bool)
    (xs : List α) : ∀ i r, r ∈ selectRowsFrom sel b i xs → r ∈ xs := by
  induction xs with
  | nil => intro i r hr; simp [selectRowsFrom] at hr
  | cons a rs ih =>
      intro i r hr
      simp only [selectRowsFrom] at hr
      by_cases h : sel i = b
      · rw [if_pos h] at hr
        rcases List.mem_cons.1 hr with h1 | h1
        · exact h1 ▸ List.mem_cons_self a rs
        · exact List.mem_cons_of_mem a (ih (i + 1) r h1)
      · rw [if_neg h] at hr
        exact List.mem_cons_of_mem a (ih (i + 1) r hr)

lemma shape1_eq_of_rows {n : Nat} {m : List (List ℝ)}
    (hcols : ∀ r ∈ m, r.length = n) (hne : m ≠ []) : shape1 m = n := by
  cases m with
  | nil => exact absurd rfl hne
  | cons r rs => exact hcols r (List.mem_cons_self r rs)

/-- C5: when every loaded row has the 10 feature columns of the diabetes
dataset and the training split is nonempty, the training matrix handed
to the model has 10 columns per sample, the first Dense layer declares
`input_shape = train_data.shape[1]`, and that shape equals the loaded
feature width. -/
theorem c5_input_shape (sel : Nat → Bool) (f : Nat → ℝ × ℝ × ℝ × ℝ)
    (d : List (List ℝ)) (t : List ℝ)
    (hcols : ∀ r ∈ d, r.length = diabetesFeatureCount)
    (hne : selectRows sel false d ≠ []) :
    (∀ r ∈ (runNotebook sel f d t).trainData, r.length = diabetesFeatureCount) ∧
      firstInputShape (runNotebook sel f d t).model
        = some (shape1 (runNotebook sel f d t).trainData) ∧
      shape1 (runNotebook sel f d t).trainData = diabetesFeatureCount := by
  have htrain : (runNotebook sel f d t).trainData = selectRows sel false d := rfl
  have hmem : ∀ r ∈ (runNotebook sel f d t).trainData, r.length = diabetesFeatureCount := by
    intro r hr
    rw [htrain] at hr
    exact hcols r (mem_of_mem_selectRowsFrom sel false d 0 r hr)
  refine ⟨hmem, rfl, ?_⟩
  rw [htrain]
  exact shape1_eq_of_rows (fun r hr => hmem r (htrain ▸ hr)) hne

/-- Witness for C5: a concrete 2-row matrix of 10-column rows, with row 1
assigned to the test split. -/
theorem c5_witness :
    (∀ r ∈ [List.replicate 10 (0 : ℝ), List.replicate 10 (1 : ℝ)],
        r.length = diabetesFeatureCount) ∧
      (fun i => i == 1) 0 = false ∧
      ((∀ r ∈ (runNotebook (fun i => i == 1) (fun _ => (0, 0, 0, 0))
            [List.replicate 10 (0 : ℝ), List.replicate 10 (1 : ℝ)] []).trainData,
          r.length = diabetesFeatureCount) ∧
        firstInputShape (runNotebook (fun i => i == 1) (fun _ => (0, 0, 0, 0))
            [List.replicate 10 (0 : ℝ), List.replicate 10 (1 : ℝ)] []).model
          = some (shape1 (runNotebook (fun i => i == 1) (fun _ => (0, 0, 0, 0))
              [List.replicate 10 (0 : ℝ), List.replicate 10 (1 : ℝ)] []).trainData) ∧
        shape1 (runNotebook (fun i => i == 1) (fun _ => (0, 0, 0, 0))
            [List.replicate 10 (0 : ℝ), List.replicate 10 (1 : ℝ)] []).trainData
          = diabetesFeatureCount) := by
  have hcols : ∀ r ∈ [List.replicate 10 (0 : ℝ), List.replicate 10 (1 : ℝ)],
      r.length = diabetesFeatureCount := by
    intro r hr
    rcases List.mem_cons.1 hr with h | h
    · simp [h, diabetesFeatureCount]
    · rcases List.mem_cons.1 h with h1 | h1
      · simp [h1, diabetesFeatureCount]
      · simp at h1
  have hne : selectRows (fun i => i == 1) false
      [List.replicate 10 (0 : ℝ), List.replicate 10 (1 : ℝ)] ≠ [] := by
    simp [selectRows, selectRowsFrom]
  exact ⟨hcols, rfl,
    c5_input_shape (fun i => i == 1) (fun _ => (0, 0, 0, 0))
      [List.replicate 10 (0 : ℝ), List.replicate 10 (1 : ℝ)] [] hcols hne⟩

/-- C7: the fit call requests 100 epochs; the recorded history holds one
scalar per epoch in each of the four series (loss, val_loss, mae,
val_mae), the run's stored history is exactly this record, and the
plotting cell's epochs axis `np.arange(len(frame))` has the length of
the recorded series. -/
theorem c7_history_per_epoch (sel : Nat → Bool) (f : Nat → ℝ × ℝ × ℝ × ℝ)
    (d : List (List ℝ)) (t : List ℝ) :
    notebookFit.epochs = 100 ∧
      (runNotebook sel f d t).history = some (mkHistory notebookFit.epochs f) ∧
      (mkHistory notebookFit.epochs f).loss.length = 100 ∧
      (mkHistory notebookFit.epochs f).valLoss.length = 100 ∧
      (mkHistory notebookFit.epochs f).mae.length = 100 ∧
      (mkHistory notebookFit.epochs f).valMae.length = 100 ∧
      epochsAxis (mkHistory notebookFit.epochs f) = List.range 100 ∧
      (epochsAxis (mkHistory notebookFit.epochs f)).length
        = frameLen (mkHistory notebookFit.epochs f) := by
  refine ⟨rfl, rfl, ?_, ?_, ?_, ?_, ?_, ?_⟩ <;>
    simp [mkHistory, epochsAxis, frameLen, notebookFit]

/-- C9: the cells after the split neither modify nor read the test
split: they carry `testData`/`testTargets` through unchanged, and
replacing them by anything else changes nothing else in the final
state. -/
theorem c9_test_split_untouched (f : Nat → ℝ × ℝ × ℝ × ℝ) (s : PipeState)
    (td : List (List ℝ)) (tt : List ℝ) :
    (postSplitRun f s).testData = s.testData ∧
      (postSplitRun f s).testTargets = s.testTargets ∧
      postSplitRun f { s with testData := td, testTargets := tt }
        = { postSplitRun f s with testData := td, testTargets := tt } := by
  exact ⟨rfl, rfl, rfl⟩

/-- Modelled from the spec: the external library calls the notebook
invokes, each of which may raise (shape mismatches, missing packages,
non-convergence); a raised exception is an `Except.error` carrying the
library's message.  The notebook authors no handling of its own. -/
structure Libs where
  loadDiabetes : Except String (List (List ℝ) × List ℝ)
  trainTestSplit : List (List ℝ) → List ℝ →
    Except String (List (List ℝ) × List (List ℝ) × List ℝ × List ℝ)
  fitCall : List Layer → CompileConfig → List (List ℝ) → List ℝ → FitConfig →
    Except String History
  plotCall : History → Except String Unit

/-- The notebook's cell sequence over fallible library calls: each cell
runs only if every earlier cell succeeded, and the notebook adds no
handler around any call. -/
noncomputable def notebookRunE (L : Libs) : Except String PipeState :=
  match L.loadDiabetes with
  | Except.error e => Except.error e
  | Except.ok (d, t) =>
      match L.trainTestSplit d (normalizeTargets t) with
      | Except.error e => Except.error e
      | Except.ok (trd, ted, trt, tet) =>
          match L.fitCall (notebookModel (shape1 trd)) notebookCompile trd trt
              notebookFit with
          | Except.error e => Except.error e
          | Except.ok h =>
              match L.plotCall h with
              | Except.error e => Except.error e
              | Except.ok _ =>
                  Except.ok
                    { data := d, targets := normalizeTargets t, trainData := trd,
                      testData := ted, trainTargets := trt, testTargets := tet,
                      model := notebookModel (shape1 trd),
                      compileCfg := some notebookCompile, history := some h }

def importErrorMsg : String := "No module named sklearn"

/-- C6: the notebook performs no validation, retry or recovery: whenever
one of the invoked library calls raises and every earlier call
succeeded, the raised exception propagates unchanged out of the whole
run, which aborts at that call. -/
theorem c6_exception_propagation (L : Libs) (e : String) :
    (L.loadDiabetes = Except.error e → notebookRunE L = Except.error e) ∧
      (∀ d t, L.loadDiabetes = Except.ok (d, t) →
        L.trainTestSplit d (normalizeTargets t) = Except.error e →
        notebookRunE L = Except.error e) ∧
      (∀ d t trd ted trt tet, L.loadDiabetes = Except.ok (d, t) →
        L.trainTestSplit d (normalizeTargets t) = Except.ok (trd, ted, trt, tet) →
        L.fitCall (notebookModel (shape1 trd)) notebookCompile trd trt notebookFit
          = Except.error e →
        notebookRunE L = Except.error e) ∧
      (∀ d t trd ted trt tet h, L.loadDiabetes = Except.ok (d, t) →
        L.trainTestSplit d (normalizeTargets t) = Except.ok (trd, ted, trt, tet) →
        L.fitCall (notebookModel (shape1 trd)) notebookCompile trd trt notebookFit
          = Except.ok h →
        L.plotCall h = Except.error e →
        notebookRunE L = Except.error e) := by
  refine ⟨?_, ?_, ?_, ?_⟩
  · intro h1
    simp only [notebookRunE, h1]
  · intro d t h1 h2
    simp only [notebookRunE, h1, h2]
  · intro d t trd ted trt tet h1 h2 h3
    simp only [notebookRunE, h1, h2, h3]
  · intro d t trd ted trt tet h h1 h2 h3 h4
    simp only [notebookRunE, h1, h2, h3, h4]

/-- Witness for C6: a run whose dataset loader raises an import error;
the run's result is that very error. -/
theorem c6_witness :
    notebookRunE
        { loadDiabetes := Except.error importErrorMsg,
          trainTestSplit := fun _ _ => Except.error importErrorMsg,
          fitCall := fun _ _ _ _ _ => Except.error importErrorMsg,
          plotCall := fun _ => Except.error importErrorMsg }
      = Except.error importErrorMsg :=
  (c6_exception_propagation
    { loadDiabetes := Except.error importErrorMsg,
      trainTestSplit := fun _ _ => Except.error importErrorMsg,
      fitCall := fun _ _ _ _ _ => Except.error importErrorMsg,
      plotCall := fun _ => Except.error importErrorMsg } importErrorMsg).1 rfl

def zeroStdMsg : String := "zero standard deviation: division by zero"

/-- The normalisation line with its implicit precondition made an
explicit guard: `targets.std()` is the divisor, and a zero divisor is
the error branch; otherwise the line behaves as `normalizeTargets`. -/
noncomputable def normalizeTargetsChecked (x : List ℝ) : Except String (List ℝ) :=
  if npStd x = 0 then Except.error zeroStdMsg
  else Except.ok (normalizeTargets x)

lemma npStd_replicate (n : Nat) (c : ℝ) : npStd (List.replicate n c) = 0 := by
  have hv : npVar (List.replicate n c) = 0 := by
    cases n with
    | zero => simp [npVar, npMean]
    | succ m =>
        have hm : npMean (List.replicate (m + 1) c) = c := by
          rw [npMean, List.sum_replicate, List.length_replicate, nsmul_eq_mul,
            mul_div_cancel_left₀ _ (by positivity : ((m + 1 : Nat) : ℝ) ≠ 0)]
        rw [npVar, hm]
        simp
  rw [npStd, hv, Real.sqrt_zero]

/-- C10: the normalisation divides by `targets.std()` with no guard, so
it is well-defined only for non-constant targets: every constant target
vector has standard deviation 0, a zero standard deviation reaches the
error branch of the guarded embedding, and a nonzero one the ok
branch. -/
theorem c10_zero_std_guard :
    (∀ (n : Nat) (c : ℝ), npStd (List.replicate n c) = 0) ∧
      (∀ x : List ℝ, npStd x = 0 →
        normalizeTargetsChecked x = Except.error zeroStdMsg) ∧
      (∀ x : List ℝ, npStd x ≠ 0 →
        normalizeTargetsChecked x = Except.ok (normalizeTargets x)) := by
  refine ⟨npStd_replicate, ?_, ?_⟩
  · intro x hx
    rw [normalizeTargetsChecked, if_pos hx]
  · intro x hx
    rw [normalizeTargetsChecked, if_neg hx]

/-- Witness for C10: the constant target vector `[5, 5]` reaches the
error branch. -/
theorem c10_witness :
    normalizeTargetsChecked (List.replicate 2 (5 : ℝ)) = Except.error zeroStdMsg :=
  c10_zero_std_guard.2.1 (List.replicate 2 (5 : ℝ)) (c10_zero_std_guard.1 2 5)

/-- A concrete split assignment sending rows 0 and 1 to the training
side and every later row to the test side. -/
def selLowTrain : Nat → Bool := fun i => decide (2 ≤ i)

lemma npMean_c8a : npMean [(0 : ℝ), 0, 1, 3] = 1 := by
  norm_num [npMean]

lemma npMean_c8b : npMean [(0 : ℝ), 0, 3, 1] = 1 := by
  norm_num [npMean]

lemma npStd_c8_eq : npStd [(0 : ℝ), 0, 1, 3] = npStd [(0 : ℝ), 0, 3, 1] := by
  have hv : npVar [(0 : ℝ), 0, 1, 3] = npVar [(0 : ℝ), 0, 3, 1] := by
    rw [npVar, npVar, npMean_c8a, npMean_c8b]
    norm_num
  rw [npStd, npStd, hv]

/-- Counterexample to C8 as universally stated: the target vectors
`[0,0,1,3]` and `[0,0,3,1]` differ only in the rows the split assigns to
the test side, yet both runs produce the same `train_targets` (the swap
preserves the mean and the standard deviation). -/
theorem c8_counterexample :
    [(0 : ℝ), 0, 1, 3] ≠ [(0 : ℝ), 0, 3, 1] ∧
      (∀ i, selLowTrain i = false →
        [(0 : ℝ), 0, 1, 3].get? i = [(0 : ℝ), 0, 3, 1].get? i) ∧
      (runNotebook selLowTrain (fun _ => (0, 0, 0, 0)) [] [(0 : ℝ), 0, 1, 3]).trainTargets
        = (runNotebook selLowTrain (fun _ => (0, 0, 0, 0)) [] [(0 : ℝ), 0, 3, 1]).trainTargets := by
  refine ⟨by norm_num, ?_, ?_⟩
  · intro i hi
    rcases i with _ | _ | n
    · rfl
    · rfl
    · have h2 : selLowTrain (n + 2) = true := by
        simp only [selLowTrain, decide_eq_true_eq]
        omega
      rw [h2] at hi
      exact Bool.noConfusion hi
  · show selectRows selLowTrain false (normalizeTargets [(0 : ℝ), 0, 1, 3])
        = selectRows selLowTrain false (normalizeTargets [(0 : ℝ), 0, 3, 1])
    simp only [normalizeTargets, List.map_cons, List.map_nil, selectRows,
      selectRowsFrom, selLowTrain]
    norm_num [npMean_c8a, npMean_c8b, npStd_c8_eq]

lemma npVar_c8c : npVar [(1 : ℝ), 0, 10, 10] = 363 / 16 := by
  have hm : npMean [(1 : ℝ), 0, 10, 10] = 21 / 4 := by
    norm_num [npMean]
  rw [npVar, hm]
  norm_num

lemma npVar_c8d : npVar [(1 : ℝ), 0, -10, -10] = 443 / 16 := by
  have hm : npMean [(1 : ℝ), 0, -10, -10] = -19 / 4 := by
    norm_num [npMean]
  rw [npVar, hm]
  norm_num

/-- C8 as amended: there are two runs on target vectors that differ only
in the targets of rows assigned to the test split whose resulting
`train_targets` differ, because the normalisation statistics are taken
over the whole vector before the split (interference from test-row
targets into the training targets). -/
theorem c8_interference_exists :
    ∃ (t t' : List ℝ) (sel : Nat → Bool),
      t.length = t'.length ∧ t ≠ t' ∧
      (∀ i, sel i = false → t.get? i = t'.get? i) ∧
      (runNotebook sel (fun _ => (0, 0, 0, 0)) [] t).trainTargets
        ≠ (runNotebook sel (fun _ => (0, 0, 0, 0)) [] t').trainTargets := by
  refine ⟨[(1 : ℝ), 0, 10, 10], [(1 : ℝ), 0, -10, -10], selLowTrain, rfl,
    by norm_num, ?_, ?_⟩
  · intro i hi
    rcases i with _ | _ | n
    · rfl
    · rfl
    · have h2 : selLowTrain (n + 2) = true := by
        simp only [selLowTrain, decide_eq_true_eq]
        omega
      rw [h2] at hi
      exact Bool.noConfusion hi
  · have hsc : 0 < npStd [(1 : ℝ), 0, 10, 10] := by
      rw [npStd, npVar_c8c]
      exact Real.sqrt_pos.mpr (by norm_num)
    have hsd : 0 < npStd [(1 : ℝ), 0, -10, -10] := by
      rw [npStd, npVar_c8d]
      exact Real.sqrt_pos.mpr (by norm_num)
    have hmc : npMean [(1 : ℝ), 0, 10, 10] = 21 / 4 := by
      norm_num [npMean]
    have hmd : npMean [(1 : ℝ), 0, -10, -10] = -19 / 4 := by
      norm_num [npMean]
    have hneg : ((1 : ℝ) - npMean [(1 : ℝ), 0, 10, 10])
        / npStd [(1 : ℝ), 0, 10, 10] < 0 :=
      div_neg_of_neg_of_pos (by rw [hmc]; norm_num) hsc
    have hpos : 0 < ((1 : ℝ) - npMean [(1 : ℝ), 0, -10, -10])
        / npStd [(1 : ℝ), 0, -10, -10] :=
      div_pos (by rw [hmd]; norm_num) hsd
    have he1 : (runNotebook selLowTrain (fun _ => (0, 0, 0, 0)) []
        [(1 : ℝ), 0, 10, 10]).trainTargets
        = [((1 : ℝ) - npMean [(1 : ℝ), 0, 10, 10]) / npStd [(1 : ℝ), 0, 10, 10],
           ((0 : ℝ) - npMean [(1 : ℝ), 0, 10, 10]) / npStd [(1 : ℝ), 0, 10, 10]] := rfl
    have he2 : (runNotebook selLowTrain (fun _ => (0, 0, 0, 0)) []
        [(1 : ℝ), 0, -10, -10]).trainTargets
        = [((1 : ℝ) - npMean [(1 : ℝ), 0, -10, -10]) / npStd [(1 : ℝ), 0, -10, -10],
           ((0 : ℝ) - npMean [(1 : ℝ), 0, -10, -10]) / npStd [(1 : ℝ), 0, -10, -10]] := rfl
    intro heq
    rw [he1, he2] at heq
    have hhead := List.head_eq_of_cons_eq heq
    rw [hhead] at hneg
    exact absurd hpos (not_lt.mpr hneg.le)

end TF2LDN
